import Mathlib

/-!
# Verification of the FireHawk Quantity Estimator calculation core

Shallow embedding of the calculation / unit-conversion engine of the
`fh-qty-estimator` repository:

* `src/utils/UnitConverter.ts`   — unit conversions,
* `src/utils/FireHawkCalculator.ts` — the dosage calculator,
* `src/constants/index.ts`       — the static configuration data,
* the `useRealtimeCalculation` React hook — debounced recalculation.

Modelling conventions:

* JavaScript numbers are modelled as `ℚ`.  All inputs appearing in the
  claims are exact decimal fractions, and every arithmetic operation the
  engine performs on them (add, mul, div, ceil, compare) is exact on `ℚ`.
  `NaN` (which arises in the code from the *missing*
  `CALCULATION_CONSTANTS.STANDARD_SPRAY_VOLUME` property, see below) is
  modelled as `none` in an `Option ℚ`; comparisons against `NaN` are
  `false`, mirroring IEEE semantics, and arithmetic on `NaN` yields `NaN`.
* A `throw` is modelled by `Except String`, carrying the thrown message.
* Display-string assembly (`toFixed`, template literals in the breakdown
  `steps`/`assumptions` and the unused `displayUnits` binding) is not part
  of any claim and is omitted from the embedding of
  `createCalculationBreakdown`; the numeric `factors` record is kept.
* `Array.prototype.sort` with the comparator
  `(a, b) => a.efficiency - b.efficiency` is, by the ECMAScript
  specification, a *stable* ascending sort; it is modelled by Mathlib's
  stable `List.insertionSort` on the corresponding total preorder.
-/

/- Core marks rational arithmetic `@[irreducible]`; re-enable unfolding so
that concrete runs of the embedded engine can be settled by `decide`. -/
unseal Rat.mul Rat.add Rat.sub Rat.inv

instance {ε α : Type _} [DecidableEq ε] [DecidableEq α] : DecidableEq (Except ε α) :=
  fun x y =>
    match x, y with
    | .ok a, .ok b => decidable_of_iff (a = b) (by simp)
    | .error a, .error b => decidable_of_iff (a = b) (by simp)
    | .ok _, .error _ => isFalse (by simp)
    | .error _, .ok _ => isFalse (by simp)

namespace FireHawk

/-! ## Enumerations (src/types, `part_004`) -/

inductive AreaUnit
  | sq_ft
  | sq_m
  | acres
  | hectares
deriving DecidableEq, Repr

inductive VolumeUnit
  | fl_oz
  | gallons
  | ml
  | liters
deriving DecidableEq, Repr

inductive WeedSize
  | small
  | medium
  | large
  | xl
deriving DecidableEq, Repr

inductive UnitSystem
  | imperial
  | metric
deriving DecidableEq, Repr

/-- The runtime string value of a `WeedSize` enum member (used in
validation messages: `${values.weedSize}`). -/
def weedSizeStr : WeedSize → String
  | .small => "small"
  | .medium => "medium"
  | .large => "large"
  | .xl => "xl"

def areaUnitStr : AreaUnit → String
  | .sq_ft => "sq_ft"
  | .sq_m => "sq_m"
  | .acres => "acres"
  | .hectares => "hectares"

def volumeUnitStr : VolumeUnit → String
  | .fl_oz => "fl_oz"
  | .gallons => "gallons"
  | .ml => "ml"
  | .liters => "liters"

/-! ## Conversion factor tables (src/constants/index.ts, lines 6-51)

The source table `CONVERSION_FACTORS` has no entry for a unit paired with
itself (`convertArea`/`convertVolume` early-return in that case); a missing
entry is `none` and makes the converter throw. -/

def AREA_FACTORS : AreaUnit → AreaUnit → Option ℚ
  | .sq_ft, .sq_m => some (92903 / 1000000)
  | .sq_ft, .acres => some (22957 / 1000000000)
  | .sq_ft, .hectares => some (92903 / 10000000000)
  | .sq_m, .sq_ft => some (107639 / 10000)
  | .sq_m, .acres => some (247105 / 1000000000)
  | .sq_m, .hectares => some (1 / 10000)
  | .acres, .sq_ft => some 43560
  | .acres, .sq_m => some (404686 / 100)
  | .acres, .hectares => some (404686 / 1000000)
  | .hectares, .sq_ft => some 107639
  | .hectares, .sq_m => some 10000
  | .hectares, .acres => some (247105 / 100000)
  | _, _ => none

def VOLUME_FACTORS : VolumeUnit → VolumeUnit → Option ℚ
  | .fl_oz, .ml => some (295735 / 10000)
  | .fl_oz, .gallons => some (78125 / 10000000)
  | .fl_oz, .liters => some (295735 / 10000000)
  | .ml, .fl_oz => some (33814 / 1000000)
  | .ml, .gallons => some (264172 / 1000000000)
  | .ml, .liters => some (1 / 1000)
  | .gallons, .fl_oz => some 128
  | .gallons, .ml => some (378541 / 100)
  | .gallons, .liters => some (378541 / 100000)
  | .liters, .fl_oz => some (33814 / 1000)
  | .liters, .ml => some 1000
  | .liters, .gallons => some (264172 / 1000000)
  | _, _ => none

/-! ## UnitConverter (src/utils/UnitConverter.ts) -/

/-- `convertArea(value, from, to)`: identity when `from === to`, otherwise
multiply by the table factor; throws when no factor exists. -/
def convertArea (value : ℚ) (f t : AreaUnit) : Except String ℚ :=
  if f = t then .ok value
  else
    match AREA_FACTORS f t with
    | some c => .ok (value * c)
    | none =>
        .error ("Conversion from " ++ areaUnitStr f ++ " to " ++ areaUnitStr t
          ++ " not supported")

/-- `convertVolume(value, from, to)`: same contract, volume table. -/
def convertVolume (value : ℚ) (f t : VolumeUnit) : Except String ℚ :=
  if f = t then .ok value
  else
    match VOLUME_FACTORS f t with
    | some c => .ok (value * c)
    | none =>
        .error ("Conversion from " ++ volumeUnitStr f ++ " to " ++ volumeUnitStr t
          ++ " not supported")

/-- `toStandardArea`: convert to square feet. -/
def toStandardArea (value : ℚ) (unit : AreaUnit) : Except String ℚ :=
  convertArea value unit .sq_ft

/-- `toStandardVolume`: convert to fluid ounces. -/
def toStandardVolume (value : ℚ) (unit : VolumeUnit) : Except String ℚ :=
  convertVolume value unit .fl_oz

/-- `getOptimalVolumeUnit(valueInFluidOunces, system)` on a non-NaN value. -/
def getOptimalVolumeUnit (valueInFluidOunces : ℚ) (system : UnitSystem) : VolumeUnit :=
  match system with
  | .imperial => if 32 < valueInFluidOunces then .gallons else .fl_oz
  | .metric =>
      match convertVolume valueInFluidOunces .fl_oz .ml with
      | .ok valueInMilliliters => if 1000 < valueInMilliliters then .liters else .ml
      | .error _ => .ml   -- unreachable: the fl_oz → ml factor exists

/-- `getOptimalVolumeUnit` on a possibly-NaN value (`none` = NaN): every
comparison against NaN is false, so both threshold tests fall through to
the small unit. -/
def getOptimalVolumeUnitNaN : Option ℚ → UnitSystem → VolumeUnit
  | some v, system => getOptimalVolumeUnit v system
  | none, .imperial => .fl_oz
  | none, .metric => .ml

/-- `convertVolume` on a possibly-NaN value: NaN times any factor is NaN. -/
def convertVolumeNaN : Option ℚ → VolumeUnit → VolumeUnit → Except String (Option ℚ)
  | none, _, _ => .ok none
  | some v, f, t => (convertVolume v f t).map some

/-! ## Static configuration (src/constants/index.ts) -/

structure WeedSizeConfig where
  id : WeedSize
  label : String
  descr : String          -- `description` in the source
  multiplier : ℚ
  minRate : ℚ
  maxRate : ℚ
  waterVolumePerHa : ℚ
deriving DecidableEq, Repr

/-- `WEED_SIZE_CONFIG` (src/constants/index.ts lines 54-91).  Note: every
`multiplier` in the shipped constants is `1.0`. -/
def WEED_SIZE_CONFIG : List WeedSizeConfig :=
  [ { id := .small, label := "Small Weeds", descr := "Less than 6 inches tall",
      multiplier := 1, minRate := 3, maxRate := 7, waterVolumePerHa := 750 },
    { id := .medium, label := "Medium Weeds", descr := "6-12 inches tall",
      multiplier := 1, minRate := 4, maxRate := 8, waterVolumePerHa := 900 },
    { id := .large, label := "Large Weeds", descr := "12-24 inches tall",
      multiplier := 1, minRate := 5, maxRate := 9, waterVolumePerHa := 1000 },
    { id := .xl, label := "Extra Large Weeds", descr := "Over 24 inches tall",
      multiplier := 1, minRate := 5, maxRate := 10, waterVolumePerHa := 1000 } ]

structure RateBounds where
  min : ℚ
  max : ℚ
  dflt : ℚ               -- `default` in the source
deriving DecidableEq, Repr

/-- `DEFAULT_APPLICATION_RATES` (src/constants/index.ts lines 94-99). -/
def DEFAULT_APPLICATION_RATES : WeedSize → RateBounds
  | .small => ⟨3, 7, 5⟩
  | .medium => ⟨4, 8, 5⟩
  | .large => ⟨5, 9, 6⟩
  | .xl => ⟨5, 10, 7⟩

/-- `CALCULATION_CONSTANTS` (src/constants/index.ts lines 158-173).  These
are exactly the properties the object declares. -/
structure CalculationConstants where
  WATER_VOLUMES : WeedSize → ℚ
  FIREHAWK_CONCENTRATION : ℚ
  MIN_AREA : ℚ
  MAX_AREA : ℚ
  CALCULATION_DEBOUNCE : ℚ

def CALCULATION_CONSTANTS : CalculationConstants :=
  { WATER_VOLUMES := fun w =>
      match w with
      | .small => 750
      | .medium => 900
      | .large => 1000
      | .xl => 1000
  , FIREHAWK_CONCENTRATION := 5 / 2
  , MIN_AREA := 100
  , MAX_AREA := 100000
  , CALCULATION_DEBOUNCE := 300 }

/-- The calculator reads `CALCULATION_CONSTANTS.STANDARD_SPRAY_VOLUME`
(FireHawkCalculator.ts lines 56, 260, 268), but the constants object has
**no such property**: in JavaScript the access yields `undefined`, and
`(area / 1000) * undefined` is `NaN`.  Modelled as `none`. -/
def CALCULATION_CONSTANTS_STANDARD_SPRAY_VOLUME : Option ℚ := none

/-! ## Data model (src/types, `part_004`) -/

structure EstimatorValues where
  area : ℚ
  areaUnit : AreaUnit
  weedSize : WeedSize
  applicationRate : ℚ
  applicationUnit : VolumeUnit
  unitSystem : UnitSystem
deriving DecidableEq, Repr

structure PackageSize where
  id : String
  volume : ℚ
  unit : VolumeUnit
  price : ℚ
  isPopular : Bool := false
deriving DecidableEq, Repr

structure ProductInfo where
  id : String
  name : String
  sku : String
  basePrice : ℚ
  currency : String
  concentration : ℚ      -- `concentrationRatio` in the source
  packageSizes : List PackageSize
  applicationRates : WeedSize → RateBounds

structure ProductRecommendation where
  packageId : String
  quantity : ℤ
  totalCost : ℚ
  efficiency : ℚ
  isOptimal : Bool
deriving DecidableEq, Repr

structure CalculationFactors where
  weedSizeMultiplier : ℚ
  applicationRate : ℚ
  concentration : ℚ      -- `concentrationRatio` in the source
deriving DecidableEq, Repr

/-- `CalculationBreakdown`: the `steps` and `assumptions` fields are
human-readable display strings assembled from the same numeric values and
are elided here (no claim concerns them); the numeric `factors` record is
kept in full. -/
structure CalculationBreakdown where
  factors : CalculationFactors
deriving DecidableEq, Repr

/-- `CalculationResult`.  `totalMixture` is `Option ℚ` because the missing
spray-volume constant makes the computed mixture `NaN` (= `none`). -/
structure CalculationResult where
  requiredProduct : ℚ
  productUnit : VolumeUnit
  totalMixture : Option ℚ
  mixtureUnit : VolumeUnit
  coverageArea : ℚ
  coverageUnit : AreaUnit
  estimatedCost : ℚ
  currency : String
  recommendations : List ProductRecommendation
  breakdown : CalculationBreakdown
deriving DecidableEq, Repr

/-! ## FireHawkCalculator (src/utils/FireHawkCalculator.ts) -/

/-- `calculateRequiredProduct` (lines 113-124): the `concentrationRatio`
argument is accepted but never used — the function returns the base
requirement unchanged. -/
def calculateRequiredProduct (areaSquareFeet applicationRateOzPer1000SqFt
    _concentration : ℚ) : ℚ :=
  areaSquareFeet / 1000 * applicationRateOzPer1000SqFt

/-- `applyWeedSizeMultiplier` (lines 129-143): find the weed-size config,
multiply, then clamp into the `DEFAULT_APPLICATION_RATES` bounds. -/
def applyWeedSizeMultiplier (baseApplicationRate : ℚ) (weedSize : WeedSize) :
    Except String ℚ :=
  match WEED_SIZE_CONFIG.find? (fun config => config.id == weedSize) with
  | none => .error ("Invalid weed size: " ++ weedSizeStr weedSize)
  | some weedConfig =>
      let adjustedRate := baseApplicationRate * weedConfig.multiplier
      let rateConfig := DEFAULT_APPLICATION_RATES weedSize
      .ok (max rateConfig.min (min rateConfig.max adjustedRate))

/-- `calculateTotalMixture` (lines 148-153), fed the (missing, hence NaN)
spray-volume constant. -/
def calculateTotalMixture (areaSquareFeet : ℚ)
    (sprayVolumeGallonsPer1000SqFt : Option ℚ) : Option ℚ :=
  sprayVolumeGallonsPer1000SqFt.map (fun s => areaSquareFeet / 1000 * s)

/-- One iteration of the `calculateCost` loop body (lines 166-178). -/
def packageCost (requiredProductOz : ℚ) (packageSize : PackageSize) :
    Except String ℚ := do
  let packageOz ← convertVolume packageSize.volume packageSize.unit .fl_oz
  let packagesNeeded : ℤ := ⌈requiredProductOz / packageOz⌉
  .ok ((packagesNeeded : ℚ) * packageSize.price)

/-- The costs of all packages, in catalog order (the loop of lines 166-179). -/
def costList (requiredProductOz : ℚ) : List PackageSize → Except String (List ℚ)
  | [] => .ok []
  | p :: ps => do
    let c ← packageCost requiredProductOz p
    let cs ← costList requiredProductOz ps
    .ok (c :: cs)

/-- `calculateCost` (lines 158-182): `0` for an empty catalog; otherwise the
running minimum of the per-package costs (the `minCost = Infinity` seed can
only survive the loop when the list is empty, which was already returned). -/
def calculateCost (pi : ProductInfo) (requiredProductOz : ℚ) : Except String ℚ :=
  if pi.packageSizes.isEmpty then .ok 0
  else do
    let costs ← costList requiredProductOz pi.packageSizes
    match costs with
    | [] => .ok 0
    | c :: cs => .ok (cs.foldl min c)

/-- The record pushed for one package inside `generateRecommendations`
(lines 190-209): minimum whole packages, their cost, and cost per fluid
ounce actually purchased.  `isOptimal` is initialised `false`. -/
def recommendationFor (requiredProductOz : ℚ) (packageSize : PackageSize) :
    Except String ProductRecommendation := do
  let packageOz ← convertVolume packageSize.volume packageSize.unit .fl_oz
  let quantity : ℤ := ⌈requiredProductOz / packageOz⌉
  let totalCost := (quantity : ℚ) * packageSize.price
  let totalProductOz := (quantity : ℚ) * packageOz
  let efficiency := totalCost / totalProductOz
  .ok { packageId := packageSize.id, quantity := quantity, totalCost := totalCost,
        efficiency := efficiency, isOptimal := false }

/-- The recommendation list in catalog order (the push loop of lines 190-209). -/
def buildRecs (requiredProductOz : ℚ) :
    List PackageSize → Except String (List ProductRecommendation)
  | [] => .ok []
  | p :: ps => do
    let r ← recommendationFor requiredProductOz p
    let rs ← buildRecs requiredProductOz ps
    .ok (r :: rs)

/-- The sort order of `recommendations.sort((a, b) => a.efficiency - b.efficiency)`. -/
def recLE (a b : ProductRecommendation) : Prop :=
  a.efficiency ≤ b.efficiency

instance : DecidableRel recLE := fun a b =>
  inferInstanceAs (Decidable (a.efficiency ≤ b.efficiency))

instance : IsTotal ProductRecommendation recLE :=
  ⟨fun a b => le_total a.efficiency b.efficiency⟩

instance : IsTrans ProductRecommendation recLE :=
  ⟨fun _ _ _ hab hbc => le_trans hab hbc⟩

/-- `generateRecommendations` (lines 187-218): build, stably sort ascending
by `efficiency`, then mark the first entry optimal. -/
def generateRecommendations (pi : ProductInfo) (requiredProductOz : ℚ) :
    Except String (List ProductRecommendation) := do
  let recommendations ← buildRecs requiredProductOz pi.packageSizes
  match List.insertionSort recLE recommendations with
  | [] => .ok []
  | h :: t => .ok ({ h with isOptimal := true } :: t)

/-- `createCalculationBreakdown` (lines 223-282), restricted to the numeric
`factors` record (the display-string `steps`/`assumptions` are elided).
`weedConfig?.multiplier || 1` yields `1` when the config is missing *or*
its multiplier is `0` (JavaScript `||` on a falsy value). -/
def createCalculationBreakdown (pi : ProductInfo) (values : EstimatorValues)
    (adjustedApplicationRate : ℚ) : CalculationBreakdown :=
  let weedConfig := WEED_SIZE_CONFIG.find? (fun config => config.id == values.weedSize)
  { factors :=
    { weedSizeMultiplier :=
        match weedConfig with
        | some c => if c.multiplier = 0 then 1 else c.multiplier
        | none => 1
    , applicationRate := adjustedApplicationRate
    , concentration := pi.concentration } }

/-- The body of `calculate` (lines 31-104), before the catch-all wrapper.
The unused `displayUnits` binding (line 75) is elided. -/
def calculateBody (pi : ProductInfo) (values : EstimatorValues) :
    Except String CalculationResult := do
  let standardArea ← toStandardArea values.area values.areaUnit
  let standardApplicationRate ← toStandardVolume values.applicationRate values.applicationUnit
  let adjustedApplicationRate ← applyWeedSizeMultiplier standardApplicationRate values.weedSize
  let requiredProductOz :=
    calculateRequiredProduct standardArea adjustedApplicationRate pi.concentration
  let totalMixtureGallons :=
    calculateTotalMixture standardArea CALCULATION_CONSTANTS_STANDARD_SPRAY_VOLUME
  let estimatedCost ← calculateCost pi requiredProductOz
  let recommendations ← generateRecommendations pi requiredProductOz
  let breakdown := createCalculationBreakdown pi values adjustedApplicationRate
  let optimalProductUnit := getOptimalVolumeUnit requiredProductOz values.unitSystem
  let optimalMixtureUnit :=
    getOptimalVolumeUnitNaN (totalMixtureGallons.map (fun g => g * 128)) values.unitSystem
  let requiredProduct ← convertVolume requiredProductOz .fl_oz optimalProductUnit
  let totalMixture ← convertVolumeNaN totalMixtureGallons .gallons optimalMixtureUnit
  .ok { requiredProduct := requiredProduct
      , productUnit := optimalProductUnit
      , totalMixture := totalMixture
      , mixtureUnit := optimalMixtureUnit
      , coverageArea := values.area
      , coverageUnit := values.areaUnit
      , estimatedCost := estimatedCost
      , currency := pi.currency
      , recommendations := recommendations
      , breakdown := breakdown }

/-- `calculate` (lines 31-108): the try/catch wraps any thrown message. -/
def calculate (pi : ProductInfo) (values : EstimatorValues) :
    Except String CalculationResult :=
  match calculateBody pi values with
  | .ok r => .ok r
  | .error m => .error ("Calculation failed: " ++ m)

/-- `validateInputs` (lines 287-314): every rule appends its own message;
no rule short-circuits the following ones.  (`Number.isFinite` is always
true on `ℚ`.) -/
def validateInputs (values : EstimatorValues) : List String :=
  (if values.area ≤ 0 then ["Area must be a positive number"] else [])
  ++ (if values.area < CALCULATION_CONSTANTS.MIN_AREA then
        ["Area must be at least " ++ toString CALCULATION_CONSTANTS.MIN_AREA
          ++ " square feet"]
      else [])
  ++ (if CALCULATION_CONSTANTS.MAX_AREA < values.area then
        ["Area cannot exceed " ++ toString CALCULATION_CONSTANTS.MAX_AREA
          ++ " square feet"]
      else [])
  ++ (if values.applicationRate ≤ 0 then ["Application rate must be a positive number"]
      else [])
  ++ (let rateConfig := DEFAULT_APPLICATION_RATES values.weedSize
      if values.applicationRate < rateConfig.min ∨ rateConfig.max < values.applicationRate
      then
        ["Application rate for " ++ weedSizeStr values.weedSize
          ++ " weeds must be between " ++ toString rateConfig.min ++ " and "
          ++ toString rateConfig.max]
      else [])

/-! ## useRealtimeCalculation (`part_003`, lines 115-167)

The hook's observable state and its two transitions.  `executed` is ghost
instrumentation recording each invocation of `calculator.calculate` so
that "exactly one calculation executes" is expressible; the source has no
such field.  `isCalculating` is transiently `true` inside the timer
callback and `false` again in its `finally` block; the model records the
settled value.  The hook is parametric in the calculator it is handed
(`calc : EstimatorValues → Except String CalculationResult`), exactly as
the source hook receives `calculator` as an argument. -/

structure HookState where
  calculation : Option CalculationResult
  isCalculating : Bool
  error : Option String
  pendingValues : Option EstimatorValues
  executed : List EstimatorValues

/-- An input-value change: `calculateWithDebounce` clears any pending
timer (`clearTimeout`) and arms a fresh one capturing the new values
(`setTimeout`, lines 130-152); nothing else is touched. -/
def inputChange (s : HookState) (values : EstimatorValues) : HookState :=
  { s with pendingValues := some values }

/-- The debounce timer fires (the `setTimeout` callback, lines 137-151):
on success the result replaces `calculation` and the error is cleared; on
a throw the message is recorded via `setError` and `setCalculation(null)`
clears the previously exposed result. -/
def timerFire (calcFn : EstimatorValues → Except String CalculationResult)
    (s : HookState) : HookState :=
  match s.pendingValues with
  | none => s
  | some values =>
      match calcFn values with
      | .ok result =>
          { calculation := some result, isCalculating := false, error := none,
            pendingValues := none, executed := s.executed ++ [values] }
      | .error msg =>
          { calculation := none, isCalculating := false, error := some msg,
            pendingValues := none, executed := s.executed ++ [values] }

/-! ## Concrete fixtures (the repository's own test fixture,
`tests/utils/FireHawkCalculator.test.ts` = `part_002`, lines 18-54) -/

def mockProductInfo : ProductInfo :=
  { id := "firehawk-2.5"
  , name := "FireHawk Herbicide"
  , sku := "FH-2.5-TEST"
  , basePrice := 4599 / 100
  , currency := "USD"
  , concentration := 5 / 2
  , packageSizes :=
      [ { id := "small-8oz", volume := 8, unit := .fl_oz, price := 2499 / 100 },
        { id := "medium-16oz", volume := 16, unit := .fl_oz, price := 4599 / 100,
          isPopular := true },
        { id := "large-32oz", volume := 32, unit := .fl_oz, price := 8499 / 100 } ]
  , applicationRates := fun w =>
      match w with
      | .small => ⟨1, 2, 3 / 2⟩
      | .medium => ⟨3 / 2, 3, 2⟩
      | .large => ⟨2, 4, 3⟩
      | .xl => ⟨3, 6, 4⟩ }

/-- The standard test input: 1000 sq ft, medium weeds, 2.0 fl oz. -/
def standardTestValues : EstimatorValues :=
  { area := 1000, areaUnit := .sq_ft, weedSize := .medium,
    applicationRate := 2, applicationUnit := .fl_oz, unitSystem := .imperial }

/-- The extra-large test input: 1000 sq ft, xl weeds, 4.0 fl oz. -/
def xlTestValues : EstimatorValues :=
  { area := 1000, areaUnit := .sq_ft, weedSize := .xl,
    applicationRate := 4, applicationUnit := .fl_oz, unitSystem := .imperial }

/-- C1: For area = 1000 sq ft, weed size MEDIUM, application rate 2.0 fl oz,
the code does NOT produce the claimed 2.5 / 2.5 / 2.0 gallons.  The shipped
`WEED_SIZE_CONFIG` multiplier for MEDIUM is 1.0 (not 1.25), the clamp then
raises 2.0 to the MEDIUM minimum 4.0, so the adjusted rate and the required
concentrate are both 4.0 fl oz; and because
`CALCULATION_CONSTANTS.STANDARD_SPRAY_VOLUME` does not exist, the total
mixture is NaN (`none`), not 2.0 gallons.  The repository's own unit tests
assert the claimed values, so this is a defect of the code. -/
theorem calculate_medium_scenario :
    (calculate mockProductInfo standardTestValues).map
      (fun r => (r.requiredProduct, r.breakdown.factors.applicationRate,
                 r.breakdown.factors.weedSizeMultiplier, r.totalMixture))
    = .ok (4, 4, 1, none) := by
  decide

/-- C2: For weed size EXTRA_LARGE with base rate 4.0, the code does NOT
clamp 8.0 down to 6.0: the shipped multiplier is 1.0 (not 2.0), so the
pre-clamp rate is 4.0, and the clamp into the `DEFAULT_APPLICATION_RATES`
xl range [5, 10] raises it to 5.0.  The breakdown's `applicationRate`
factor is 5.0 — not the 6.0 the claim (and the repository's own tests)
require, and not 8.0 either. -/
theorem applyWeedSizeMultiplier_xl_gives_five :
    applyWeedSizeMultiplier 4 .xl = .ok 5 ∧
    (calculate mockProductInfo xlTestValues).map
      (fun r => (r.breakdown.factors.applicationRate,
                 r.breakdown.factors.weedSizeMultiplier))
    = .ok (5, 1) := by
  decide

/-! ## C3: behaviour of the hook on a failed calculation -/

/-- A previously exposed successful result held by the hook. -/
def prevResult : CalculationResult :=
  { requiredProduct := 5 / 2, productUnit := .fl_oz, totalMixture := some 2,
    mixtureUnit := .gallons, coverageArea := 1000, coverageUnit := .sq_ft,
    estimatedCost := 2499 / 100, currency := "USD", recommendations := [],
    breakdown := { factors := ⟨1, 5 / 2, 5 / 2⟩ } }

/-- A calculator whose `calculate` throws — the throw the repository's own
tests exercise with an invalid weed-size cast. -/
def failingCalc : EstimatorValues → Except String CalculationResult :=
  fun _ => .error "Calculation failed: Invalid weed size: invalid"

/-- Hook state holding a previous successful result, with a pending
debounce timer armed for the next recalculation. -/
def hookStateWithResult : HookState :=
  { calculation := some prevResult, isCalculating := false, error := none,
    pendingValues := some standardTestValues, executed := [] }

/-- C3 counterexample: when the pending calculation throws, the hook does
record the error message, but the previously exposed successful result
does **not** remain unchanged — the `catch` branch runs
`setCalculation(null)` and the stored result is cleared. -/
theorem timerFire_failure_clears_previous_result :
    hookStateWithResult.calculation = some prevResult ∧
    (timerFire failingCalc hookStateWithResult).error
      = some "Calculation failed: Invalid weed size: invalid" ∧
    (timerFire failingCalc hookStateWithResult).calculation
      ≠ hookStateWithResult.calculation := by
  refine ⟨rfl, rfl, ?_⟩
  decide

/-- C3 (amended): when a calculation attempt fails, the controller records
the error message and **clears** the previously exposed result to `null`
(it is not preserved for display alongside the error). -/
theorem timerFire_failure_records_error_and_clears
    (calcFn : EstimatorValues → Except String CalculationResult)
    (s : HookState) (values : EstimatorValues) (msg : String)
    (hp : s.pendingValues = some values) (hc : calcFn values = .error msg) :
    (timerFire calcFn s).error = some msg ∧
    (timerFire calcFn s).calculation = none := by
  simp [timerFire, hp, hc]

/-- Witness for the amended C3 theorem at a concrete state. -/
theorem timerFire_failure_records_error_and_clears_witness :
    (timerFire failingCalc hookStateWithResult).error
      = some "Calculation failed: Invalid weed size: invalid" ∧
    (timerFire failingCalc hookStateWithResult).calculation = none :=
  timerFire_failure_records_error_and_clears failingCalc hookStateWithResult
    standardTestValues "Calculation failed: Invalid weed size: invalid" rfl rfl

/-! ## C6: debounce collapsing -/

theorem foldl_inputChange_executed (vs : List EstimatorValues) (s : HookState) :
    (vs.foldl inputChange s).executed = s.executed := by
  induction vs generalizing s with
  | nil => rfl
  | cons v vs ih =>
      rw [List.foldl_cons, ih]
      rfl

theorem foldl_inputChange_pending (vs : List EstimatorValues) (s : HookState)
    (h : vs ≠ []) :
    (vs.foldl inputChange s).pendingValues = some (vs.getLast h) := by
  induction vs generalizing s with
  | nil => exact absurd rfl h
  | cons v vs ih =>
      cases vs with
      | nil => rfl
      | cons w ws =>
          rw [List.foldl_cons, ih (inputChange s v) (by simp)]
          rfl

/-- C6: any number of input changes inside the debounce window (i.e. with
no timer expiry between them) execute no calculation themselves — each one
merely re-arms the single pending timer — and when the timer finally
fires, exactly one calculation executes, on the most recent input set. -/
theorem debounce_single_execution_last_values
    (calcFn : EstimatorValues → Except String CalculationResult)
    (s : HookState) (vs : List EstimatorValues) (h : vs ≠ []) :
    (vs.foldl inputChange s).executed = s.executed ∧
    (timerFire calcFn (vs.foldl inputChange s)).executed
      = s.executed ++ [vs.getLast h] := by
  refine ⟨foldl_inputChange_executed vs s, ?_⟩
  have hp := foldl_inputChange_pending vs s h
  have he := foldl_inputChange_executed vs s
  cases hcalc : calcFn (vs.getLast h) <;> simp [timerFire, hp, he, hcalc]

/-- The hook's initial state (`Idle`). -/
def initialHookState : HookState :=
  { calculation := none, isCalculating := false, error := none,
    pendingValues := none, executed := [] }

def changedValuesA : EstimatorValues := { standardTestValues with area := 1200 }

def changedValuesB : EstimatorValues := { standardTestValues with area := 1500 }

def changedValuesC : EstimatorValues :=
  { standardTestValues with area := 1500, applicationRate := 3 }

/-- Witness for C6: three rapid input changes, then one timer expiry —
exactly one calculation executes and it sees the third input set. -/
theorem debounce_single_execution_last_values_witness :
    (([changedValuesA, changedValuesB, changedValuesC].foldl inputChange
        initialHookState).executed = []) ∧
    (timerFire (calculate mockProductInfo)
        ([changedValuesA, changedValuesB, changedValuesC].foldl inputChange
          initialHookState)).executed = [changedValuesC] := by
  have h := debounce_single_execution_last_values (calculate mockProductInfo)
    initialHookState [changedValuesA, changedValuesB, changedValuesC] (by simp)
  simpa [initialHookState, List.getLast] using h

/-! ## C5: exhaustive validation -/

/-- C5: `validateInputs` accumulates every violation: whenever both the
area and the application rate are negative, the returned error list
contains (at least) the two distinct messages for the two violations —
it never stops at the first. -/
theorem validateInputs_accumulates_two_errors (values : EstimatorValues)
    (ha : values.area < 0) (hr : values.applicationRate < 0) :
    "Area must be a positive number" ∈ validateInputs values ∧
    "Application rate must be a positive number" ∈ validateInputs values ∧
    ("Area must be a positive number" : String)
      ≠ "Application rate must be a positive number" := by
  have ha' : values.area ≤ 0 := le_of_lt ha
  have hr' : values.applicationRate ≤ 0 := le_of_lt hr
  refine ⟨?_, ?_, by decide⟩
  · simp only [validateInputs, if_pos ha', List.append_assoc]
    exact List.mem_append_left _ (List.mem_singleton_self _)
  · simp only [validateInputs, if_pos hr', List.append_assoc]
    refine List.mem_append_right _ (List.mem_append_right _
      (List.mem_append_right _ (List.mem_append_left _ (List.mem_singleton_self _))))

/-- A concrete input with both a negative area and a negative rate. -/
def doublyInvalidValues : EstimatorValues :=
  { area := -100, areaUnit := .sq_ft, weedSize := .medium,
    applicationRate := -1, applicationUnit := .fl_oz, unitSystem := .imperial }

/-- Witness for C5 at a concrete doubly-invalid input. -/
theorem validateInputs_accumulates_two_errors_witness :
    "Area must be a positive number" ∈ validateInputs doublyInvalidValues ∧
    "Application rate must be a positive number" ∈ validateInputs doublyInvalidValues ∧
    ("Area must be a positive number" : String)
      ≠ "Application rate must be a positive number" :=
  validateInputs_accumulates_two_errors doublyInvalidValues
    (by norm_num [doublyInvalidValues]) (by norm_num [doublyInvalidValues])

/-! ## C4: ordering of recommendations and uniqueness of the optimal flag -/

theorem except_bind_ok {ε α β : Type _} (a : α) (f : α → Except ε β) :
    ((Except.ok a : Except ε α) >>= f) = f a := rfl

theorem except_bind_error {ε α β : Type _} (e : ε) (f : α → Except ε β) :
    ((Except.error e : Except ε α) >>= f) = .error e := rfl

theorem recommendationFor_not_optimal (requiredProductOz : ℚ) (p : PackageSize)
    (r : ProductRecommendation)
    (h : recommendationFor requiredProductOz p = .ok r) :
    r.isOptimal = false := by
  unfold recommendationFor at h
  cases hc : convertVolume p.volume p.unit .fl_oz with
  | error e =>
      rw [hc, except_bind_error] at h
      exact Except.noConfusion h
  | ok c =>
      rw [hc, except_bind_ok] at h
      injection h with h'
      rw [← h']

theorem buildRecs_not_optimal (requiredProductOz : ℚ) :
    ∀ (ps : List PackageSize) (recs : List ProductRecommendation),
      buildRecs requiredProductOz ps = .ok recs →
      ∀ r ∈ recs, r.isOptimal = false := by
  intro ps
  induction ps with
  | nil =>
      intro recs h r hr
      simp only [buildRecs] at h
      injection h with h'
      rw [← h'] at hr
      simp at hr
  | cons p ps ih =>
      intro recs h r hr
      simp only [buildRecs] at h
      cases h1 : recommendationFor requiredProductOz p with
      | error e => rw [h1, except_bind_error] at h; exact Except.noConfusion h
      | ok r0 =>
          rw [h1, except_bind_ok] at h
          cases h2 : buildRecs requiredProductOz ps with
          | error e => rw [h2, except_bind_error] at h; exact Except.noConfusion h
          | ok rest =>
              rw [h2, except_bind_ok] at h
              injection h with h'
              rw [← h'] at hr
              rcases List.mem_cons.mp hr with h3 | h3
              · rw [h3]; exact recommendationFor_not_optimal _ _ _ h1
              · exact ih rest h2 r h3

/-! Stability of the stable ascending sort: elements whose sort key is tied
keep their input order.  Expressed through `filter`: restricting both the
input and the output to any fixed key value yields identical lists. -/

theorem filter_orderedInsert_pos {α : Type _} (r : α → α → Prop) [DecidableRel r]
    (p : α → Bool) (a : α) (hpa : p a = true)
    (hcomp : ∀ b, ¬ r a b → p b = false) :
    ∀ l : List α, (List.orderedInsert r a l).filter p = a :: l.filter p := by
  intro l
  induction l with
  | nil => simp [List.orderedInsert, hpa]
  | cons b l ih =>
      by_cases h : r a b
      · rw [List.orderedInsert_of_le r _ h]
        simp [List.filter_cons, hpa]
      · simp only [List.orderedInsert, if_neg h]
        rw [List.filter_cons_of_neg (by simp [hcomp b h]), ih]
        rw [List.filter_cons_of_neg (by simp [hcomp b h])]

theorem filter_orderedInsert_neg {α : Type _} (r : α → α → Prop) [DecidableRel r]
    (p : α → Bool) (a : α) (hpa : p a = false) :
    ∀ l : List α, (List.orderedInsert r a l).filter p = l.filter p := by
  intro l
  induction l with
  | nil => simp [List.orderedInsert, hpa]
  | cons b l ih =>
      by_cases h : r a b
      · rw [List.orderedInsert_of_le r _ h]
        rw [List.filter_cons_of_neg (by simp [hpa])]
      · simp only [List.orderedInsert, if_neg h]
        by_cases hb : p b = true
        · rw [List.filter_cons_of_pos (by simp [hb]), ih,
            List.filter_cons_of_pos (by simp [hb])]
        · rw [List.filter_cons_of_neg (by simpa using hb), ih,
            List.filter_cons_of_neg (by simpa using hb)]

theorem filter_insertionSort {α : Type _} (r : α → α → Prop) [DecidableRel r]
    (p : α → Bool)
    (hcomp : ∀ a b, p a = true → ¬ r a b → p b = false) :
    ∀ l : List α, (List.insertionSort r l).filter p = l.filter p := by
  intro l
  induction l with
  | nil => rfl
  | cons a l ih =>
      simp only [List.insertionSort]
      cases hpa : p a with
      | true =>
          rw [filter_orderedInsert_pos r p a hpa (fun b => hcomp a b hpa), ih,
            List.filter_cons_of_pos (by simp [hpa])]
      | false =>
          rw [filter_orderedInsert_neg r p a hpa, ih,
            List.filter_cons_of_neg (by simp [hpa])]

theorem markOptimal_efficiency (h : ProductRecommendation) :
    ({ h with isOptimal := true } : ProductRecommendation).efficiency
      = h.efficiency := rfl

theorem markOptimal_key (h : ProductRecommendation) :
    (({ h with isOptimal := true } : ProductRecommendation).packageId,
     ({ h with isOptimal := true } : ProductRecommendation).quantity,
     ({ h with isOptimal := true } : ProductRecommendation).totalCost)
      = (h.packageId, h.quantity, h.totalCost) := rfl

/-- Modelled from the spec's words (§4.3, the C4 claim): the ordering the
claim asserts for adjacent output entries — ascending `efficiency`, ties
broken by lower `totalCost`.  This is the *claimed* order, to be compared
against the order the code actually produces. -/
def specRecOrder (a b : ProductRecommendation) : Prop :=
  a.efficiency < b.efficiency ∨
    (a.efficiency = b.efficiency ∧ a.totalCost ≤ b.totalCost)

/-- Modelled from the spec's words: the output list is sorted by
`specRecOrder`. -/
def sortedBySpecOrder (l : List ProductRecommendation) : Prop :=
  l.Pairwise specRecOrder

/-- Two packages whose cost per fluid ounce is identical (2 per fl oz) but
whose total costs differ; the dearer one comes first in the catalog. -/
def tieProductInfo : ProductInfo :=
  { id := "tie", name := "FireHawk Herbicide", sku := "FH-TIE", basePrice := 0,
    currency := "USD", concentration := 5 / 2,
    packageSizes :=
      [ { id := "big-first", volume := 8, unit := .fl_oz, price := 16 },
        { id := "small-second", volume := 4, unit := .fl_oz, price := 8 } ],
    applicationRates := DEFAULT_APPLICATION_RATES }

/-- What the code returns for `tieProductInfo` at requirement 2 fl oz. -/
def tieOutput : List ProductRecommendation :=
  [ { packageId := "big-first", quantity := 1, totalCost := 16,
      efficiency := 2, isOptimal := true },
    { packageId := "small-second", quantity := 1, totalCost := 8,
      efficiency := 2, isOptimal := false } ]

/-- C4 counterexample: the comparator consults only `efficiency`, so an
efficiency tie is left in input order even when the later entry has the
lower `totalCost` — the output is not sorted by the claimed order. -/
theorem generateRecommendations_tie_not_broken_by_cost :
    generateRecommendations tieProductInfo 2 = .ok tieOutput ∧
    ¬ sortedBySpecOrder tieOutput := by
  refine ⟨by decide, ?_⟩
  intro h
  rcases List.pairwise_cons.mp h with ⟨hall, _⟩
  have h2 := hall _ (List.mem_cons_self _ _)
  rcases h2 with h1 | ⟨_, h3⟩
  · exact absurd h1 (by decide)
  · exact absurd h3 (by decide)

/-- C4 (amended): for every non-empty recommendation output, the list is
sorted ascending by `efficiency`; ties keep their catalog (input) order —
the stable sort never consults `totalCost` — and exactly one entry has
`isOptimal = true`, namely the first (lowest-efficiency) entry. -/
theorem generateRecommendations_sorted_unique_optimal
    (pi : ProductInfo) (requiredProductOz : ℚ)
    (recs l : List ProductRecommendation)
    (hb : buildRecs requiredProductOz pi.packageSizes = .ok recs)
    (hg : generateRecommendations pi requiredProductOz = .ok l)
    (hne : l ≠ []) :
    List.Sorted recLE l ∧
    (l.head hne).isOptimal = true ∧
    (∀ x ∈ l.tail, x.isOptimal = false) ∧
    (∀ e : ℚ, (l.filter (fun x => x.efficiency == e)).map
        (fun x => (x.packageId, x.quantity, x.totalCost))
      = (recs.filter (fun x => x.efficiency == e)).map
        (fun x => (x.packageId, x.quantity, x.totalCost))) := by
  simp only [generateRecommendations, hb, except_bind_ok] at hg
  cases hs : List.insertionSort recLE recs with
  | nil =>
      rw [hs] at hg
      injection hg with hg'
      exact absurd hg'.symm hne
  | cons h t =>
      rw [hs] at hg
      injection hg with hg'
      subst hg'
      have hsort : List.Sorted recLE (h :: t) := by
        rw [← hs]; exact List.sorted_insertionSort recLE recs
      rcases List.pairwise_cons.mp hsort with ⟨hall, ht⟩
      refine ⟨?_, rfl, ?_, ?_⟩
      · exact List.pairwise_cons.mpr ⟨fun y hy => hall y hy, ht⟩
      · intro x hx
        have hx' : x ∈ List.insertionSort recLE recs := by
          rw [hs]; exact List.mem_cons_of_mem h hx
        exact buildRecs_not_optimal requiredProductOz pi.packageSizes recs hb x
          ((List.mem_insertionSort recLE).mp hx')
      · intro e
        have hcomp : ∀ a b : ProductRecommendation,
            (a.efficiency == e) = true → ¬ recLE a b → (b.efficiency == e) = false := by
          intro a b hpa hr
          have ha : a.efficiency = e := by simpa using hpa
          have hlt : b.efficiency < a.efficiency := not_le.mp hr
          have hne' : b.efficiency ≠ e := by
            intro hb'
            rw [ha, hb'] at hlt
            exact lt_irrefl e hlt
          simpa using hne'
        have hstab := filter_insertionSort recLE (fun x => x.efficiency == e) hcomp recs
        rw [hs] at hstab
        rw [← hstab]
        by_cases hph : (h.efficiency == e) = true
        · rw [List.filter_cons_of_pos (by simpa using hph),
            List.filter_cons_of_pos (by simpa [markOptimal_efficiency] using hph)]
          simp [markOptimal_key]
        · rw [List.filter_cons_of_neg (by simpa using hph),
            List.filter_cons_of_neg (by simpa [markOptimal_efficiency] using hph)]

/-- The recommendation list in catalog order for the witness input. -/
def tieRecsBuilt : List ProductRecommendation :=
  [ { packageId := "big-first", quantity := 1, totalCost := 16,
      efficiency := 2, isOptimal := false },
    { packageId := "small-second", quantity := 1, totalCost := 8,
      efficiency := 2, isOptimal := false } ]

/-- Witness for the amended C4 theorem at a concrete catalog. -/
theorem generateRecommendations_sorted_unique_optimal_witness :
    List.Sorted recLE tieOutput ∧
    (tieOutput.head (by decide)).isOptimal = true ∧
    (∀ x ∈ tieOutput.tail, x.isOptimal = false) ∧
    (∀ e : ℚ, (tieOutput.filter (fun x => x.efficiency == e)).map
        (fun x => (x.packageId, x.quantity, x.totalCost))
      = (tieRecsBuilt.filter (fun x => x.efficiency == e)).map
        (fun x => (x.packageId, x.quantity, x.totalCost))) :=
  generateRecommendations_sorted_unique_optimal tieProductInfo 2 tieRecsBuilt
    tieOutput (by decide) (by decide) (by decide)

/-! ## C7: round-trip conversion -/

/-- Convert `v` from `u1` to `u2` and back. -/
def areaRoundTrip (v : ℚ) (u1 u2 : AreaUnit) : Except String ℚ :=
  (convertArea v u1 u2).bind (fun w => convertArea w u2 u1)

/-- Convert `v` from `w1` to `w2` and back. -/
def volumeRoundTrip (v : ℚ) (w1 w2 : VolumeUnit) : Except String ℚ :=
  (convertVolume v w1 w2).bind (fun w => convertVolume w w2 w1)

/-- A successful result satisfying `P`; an error satisfies nothing. -/
def ExceptSat (e : Except String ℚ) (P : ℚ → Prop) : Prop :=
  match e with
  | .ok x => P x
  | .error _ => False

theorem mul_mul_roundtrip (v f g : ℚ) (hv : 0 < v) (h : |f * g - 1| ≤ 1 / 1000) :
    |v * f * g - v| ≤ v / 1000 := by
  have h1 : v * f * g - v = v * (f * g - 1) := by ring
  rw [h1, abs_mul, abs_of_pos hv]
  have h2 := mul_le_mul_of_nonneg_left h (le_of_lt hv)
  linarith

/-- C7: converting any positive value to another unit of the same family
and back recovers it within rounding tolerance (each pair of mutual table
factors multiplies to within 0.1% of 1, so the round trip is within 0.1%
of the original value); concretely 1000 sq ft is 92.903 sq m and converts
back to within 1 of 1000. -/
theorem convert_roundtrip_within_tolerance (v : ℚ) (hv : 0 < v)
    (u1 u2 : AreaUnit) (w1 w2 : VolumeUnit) :
    ExceptSat (areaRoundTrip v u1 u2) (fun ra => |ra - v| ≤ v / 1000) ∧
    ExceptSat (volumeRoundTrip v w1 w2) (fun rv => |rv - v| ≤ v / 1000) ∧
    convertArea 1000 .sq_ft .sq_m = .ok (92903 / 1000) ∧
    ExceptSat (convertArea (92903 / 1000) .sq_m .sq_ft)
      (fun b => |b - 1000| ≤ 1) := by
  refine ⟨?_, ?_, by decide, ?_⟩
  · cases u1 <;> cases u2 <;>
      first
        | (show |v - v| ≤ v / 1000
           simp only [sub_self, abs_zero]
           positivity)
        | exact mul_mul_roundtrip v _ _ hv (by rw [abs_le]; constructor <;> norm_num)
  · cases w1 <;> cases w2 <;>
      first
        | (show |v - v| ≤ v / 1000
           simp only [sub_self, abs_zero]
           positivity)
        | exact mul_mul_roundtrip v _ _ hv (by rw [abs_le]; constructor <;> norm_num)
  · show |(92903 : ℚ) / 1000 * (107639 / 10000) - 1000| ≤ 1
    rw [abs_le]
    constructor <;> norm_num

/-- Witness for C7 at `v = 2` and two concrete unit pairs. -/
theorem convert_roundtrip_within_tolerance_witness :
    ExceptSat (areaRoundTrip 2 .sq_ft .acres) (fun ra => |ra - 2| ≤ 2 / 1000) ∧
    ExceptSat (volumeRoundTrip 2 .fl_oz .ml) (fun rv => |rv - 2| ≤ 2 / 1000) ∧
    convertArea 1000 .sq_ft .sq_m = .ok (92903 / 1000) ∧
    ExceptSat (convertArea (92903 / 1000) .sq_m .sq_ft)
      (fun b => |b - 1000| ≤ 1) :=
  convert_roundtrip_within_tolerance 2 (by norm_num) .sq_ft .acres .fl_oz .ml

/-! ## C8: monotonicity of the package quantity -/

/-- C8: for a fixed package, the quantity computed inside
`generateRecommendations` (the smallest whole number of packages covering
the requirement) never decreases when the required volume grows. -/
theorem recommendation_quantity_monotone (p : PackageSize) (pOz r1 r2 : ℚ)
    (rec1 rec2 : ProductRecommendation)
    (hconv : convertVolume p.volume p.unit .fl_oz = .ok pOz) (hpos : 0 < pOz)
    (h12 : r1 ≤ r2)
    (h1 : recommendationFor r1 p = .ok rec1)
    (h2 : recommendationFor r2 p = .ok rec2) :
    rec1.quantity ≤ rec2.quantity := by
  unfold recommendationFor at h1 h2
  rw [hconv, except_bind_ok] at h1 h2
  injection h1 with h1'
  injection h2 with h2'
  rw [← h1', ← h2']
  show ⌈r1 / pOz⌉ ≤ ⌈r2 / pOz⌉
  exact Int.ceil_le_ceil ((div_le_div_iff_of_pos_right hpos).mpr h12)

def c8package : PackageSize :=
  { id := "small-8oz", volume := 8, unit := .fl_oz, price := 2499 / 100 }

def c8rec1 : ProductRecommendation :=
  { packageId := "small-8oz", quantity := 1, totalCost := 2499 / 100,
    efficiency := 2499 / 800, isOptimal := false }

def c8rec2 : ProductRecommendation :=
  { packageId := "small-8oz", quantity := 3, totalCost := 7497 / 100,
    efficiency := 7497 / 2400, isOptimal := false }

/-- Witness for C8: an 8 fl oz package at requirements 2 and 20 fl oz. -/
theorem recommendation_quantity_monotone_witness :
    c8rec1.quantity ≤ c8rec2.quantity :=
  recommendation_quantity_monotone c8package 8 2 20 c8rec1 c8rec2
    (by decide) (by norm_num) (by norm_num) (by decide) (by decide)

/-! ## C9: empty package catalog -/

theorem toStandardArea_ok (v : ℚ) (u : AreaUnit) :
    ∃ a, toStandardArea v u = .ok a := by
  cases u <;> exact ⟨_, rfl⟩

theorem toStandardVolume_ok (v : ℚ) (u : VolumeUnit) :
    ∃ a, toStandardVolume v u = .ok a := by
  cases u <;> exact ⟨_, rfl⟩

theorem applyWeedSizeMultiplier_ok (v : ℚ) (w : WeedSize) :
    ∃ a, applyWeedSizeMultiplier v w = .ok a := by
  cases w <;> exact ⟨_, rfl⟩

theorem convertVolume_ok (v : ℚ) (f t : VolumeUnit) :
    ∃ a, convertVolume v f t = .ok a := by
  cases f <;> cases t <;> exact ⟨_, rfl⟩

/-- C9: with an empty package catalog, `calculate` succeeds, the
recommendation list is empty and the estimated cost is `0`. -/
theorem calculate_empty_packages_zero_cost (pi : ProductInfo)
    (values : EstimatorValues) (hempty : pi.packageSizes = []) :
    (calculate pi values).map (fun r => (r.estimatedCost, r.recommendations))
      = .ok ((0 : ℚ), ([] : List ProductRecommendation)) := by
  obtain ⟨sa, hsa⟩ := toStandardArea_ok values.area values.areaUnit
  obtain ⟨sr, hsr⟩ := toStandardVolume_ok values.applicationRate values.applicationUnit
  obtain ⟨ar, har⟩ := applyWeedSizeMultiplier_ok sr values.weedSize
  have hcost : calculateCost pi (calculateRequiredProduct sa ar pi.concentration)
      = .ok 0 := by
    simp [calculateCost, hempty]
  have hrecs : generateRecommendations pi
      (calculateRequiredProduct sa ar pi.concentration) = .ok [] := by
    simp [generateRecommendations, buildRecs, hempty, except_bind_ok]
  obtain ⟨rp, hrp⟩ := convertVolume_ok
    (calculateRequiredProduct sa ar pi.concentration) .fl_oz
    (getOptimalVolumeUnit (calculateRequiredProduct sa ar pi.concentration)
      values.unitSystem)
  simp [calculate, calculateBody, hsa, hsr, har, hcost, hrecs, hrp,
    except_bind_ok, calculateTotalMixture,
    CALCULATION_CONSTANTS_STANDARD_SPRAY_VOLUME, convertVolumeNaN,
    getOptimalVolumeUnitNaN, Option.map, Except.map]

/-- The test catalog with its packages removed. -/
def emptyCatalogProductInfo : ProductInfo :=
  { mockProductInfo with packageSizes := [] }

/-- Witness for C9 at a concrete empty catalog. -/
theorem calculate_empty_packages_zero_cost_witness :
    (calculate emptyCatalogProductInfo standardTestValues).map
      (fun r => (r.estimatedCost, r.recommendations))
      = .ok ((0 : ℚ), ([] : List ProductRecommendation)) :=
  calculate_empty_packages_zero_cost emptyCatalogProductInfo standardTestValues rfl

/-! ## C10: the concentration ratio does not influence the outputs
outside the breakdown -/

theorem calculateCost_concentration (pi : ProductInfo) (c x : ℚ) :
    calculateCost { pi with concentration := c } x = calculateCost pi x := rfl

theorem generateRecommendations_concentration (pi : ProductInfo) (c x : ℚ) :
    generateRecommendations { pi with concentration := c } x
      = generateRecommendations pi x := rfl

/-- C10: two product configurations differing only in their concentration
ratio produce the same required product, the same recommendations and the
same estimated cost (the ratio reaches only the breakdown's factors and
assumption text). -/
theorem calculate_independent_of_concentration (pi : ProductInfo)
    (values : EstimatorValues) (c1 c2 : ℚ) :
    (calculate { pi with concentration := c1 } values).map
      (fun r => (r.requiredProduct, r.recommendations, r.estimatedCost)) =
    (calculate { pi with concentration := c2 } values).map
      (fun r => (r.requiredProduct, r.recommendations, r.estimatedCost)) := by
  cases hsa : toStandardArea values.area values.areaUnit with
  | error m => simp [calculate, calculateBody, hsa, except_bind_error]
  | ok sa =>
  cases hsr : toStandardVolume values.applicationRate values.applicationUnit with
  | error m => simp [calculate, calculateBody, hsa, hsr, except_bind_ok, except_bind_error]
  | ok sr =>
  cases har : applyWeedSizeMultiplier sr values.weedSize with
  | error m =>
      simp [calculate, calculateBody, hsa, hsr, har, except_bind_ok, except_bind_error]
  | ok ar =>
  cases hcost : calculateCost pi (sa / 1000 * ar) with
  | error m =>
      simp [calculate, calculateBody, hsa, hsr, har, hcost, calculateRequiredProduct,
        calculateCost_concentration, except_bind_ok, except_bind_error]
  | ok cost =>
  cases hrecs : generateRecommendations pi (sa / 1000 * ar) with
  | error m =>
      simp [calculate, calculateBody, hsa, hsr, har, hcost, hrecs,
        calculateRequiredProduct, calculateCost_concentration,
        generateRecommendations_concentration, except_bind_ok, except_bind_error]
  | ok recs =>
  cases hrp : convertVolume (sa / 1000 * ar) .fl_oz
      (getOptimalVolumeUnit (sa / 1000 * ar) values.unitSystem) with
  | error m =>
      simp [calculate, calculateBody, hsa, hsr, har, hcost, hrecs, hrp,
        calculateRequiredProduct, calculateCost_concentration,
        generateRecommendations_concentration, except_bind_ok, except_bind_error]
  | ok rp =>
      simp [calculate, calculateBody, hsa, hsr, har, hcost, hrecs, hrp,
        calculateRequiredProduct, calculateCost_concentration,
        generateRecommendations_concentration, except_bind_ok, except_bind_error,
        calculateTotalMixture, CALCULATION_CONSTANTS_STANDARD_SPRAY_VOLUME,
        convertVolumeNaN, getOptimalVolumeUnitNaN, Option.map, Except.map]

end FireHawk
